import Mathlib

/-!
Verification development for the EIP-8082 on-chain event-subscription
registry (subscription entity, RLP-level codec, and subscription manager).

Shallow embedding conventions:
* `common.Address` and `common.Hash` are modelled as `Nat`.
* `*big.Int` fields (`GasPrice`, `DepositBalance`) are modelled as `Int`
  (arbitrary-precision signed integers, exactly like `math/big`).
* `uint64` values are modelled as `Nat`; the one place where Go's
  fixed-width wraparound matters (`Subscription.RefundGas`) uses an
  explicit `% 2 ^ 64` (`sub64` below).
* Byte strings (callback selectors, event data, log payloads) are
  modelled as `List Nat`.
* The `StateDB` registry collaborator is modelled as an explicit state
  record (`SMState`) holding an insertion-ordered association list of
  subscriptions and an append-ordered log list; manager operations are
  state-passing functions.
-/

/-- Wrapping subtraction of two `uint64` values, as computed by Go's
`a - b` on `uint64` operands: the result is `(a - b) mod 2 ^ 64`. -/
def sub64 (a b : Nat) : Nat :=
  (a % 2 ^ 64 + (2 ^ 64 - b % 2 ^ 64)) % 2 ^ 64

/-- The `Subscription` record (core/types, EIP-8082). -/
structure Subscription where
  ID : Nat
  TargetContract : Nat
  EventSignature : Nat
  SubscriberContract : Nat
  CallbackAddress : Nat
  CallbackSelector : List Nat
  GasLimit : Nat
  GasPrice : Int
  DepositBalance : Int
  Active : Bool
deriving Repr, DecidableEq

/-- Modelled from the spec: the deterministic identity function
`hash(target, eventSignature, subscriber)`. The hash primitive
(`crypto.Keccak256Hash`) is an external collaborator not present in the
sources; the core only fixes the input ordering. It is modelled as an
injective pairing of the ordered triple. -/
def ComputeSubscriptionID (target : Nat) (eventSig : Nat) (subscriber : Nat) : Nat :=
  Nat.pair target (Nat.pair eventSig subscriber)

/-- `Subscription.GasCost`: `gasLimit * gasPrice`, exact arbitrary-precision
multiplication (`new(big.Int).Mul(SetUint64(GasLimit), GasPrice)`). -/
def Subscription.GasCost (s : Subscription) : Int :=
  (s.GasLimit : Int) * s.GasPrice

/-- `Subscription.HasSufficientDeposit`: `DepositBalance.Cmp(GasCost()) >= 0`. -/
def Subscription.HasSufficientDeposit (s : Subscription) : Bool :=
  decide (s.GasCost ≤ s.DepositBalance)

/-- `Subscription.DeductGas`: on sufficient deposit, subtract the gas cost
and report `true`; otherwise leave the record untouched and report `false`.
The Go method mutates the receiver; here it returns the flag and the
updated record. -/
def Subscription.DeductGas (s : Subscription) : Bool × Subscription :=
  if s.HasSufficientDeposit then
    (true, { s with DepositBalance := s.DepositBalance - s.GasCost })
  else
    (false, s)

/-- `Subscription.RefundGas`: `unusedGas := GasLimit - gasUsed` (a `uint64`
subtraction, hence `sub64`), then add `unusedGas * GasPrice` to the
deposit balance. -/
def Subscription.RefundGas (s : Subscription) (gasUsed : Nat) : Subscription :=
  { s with DepositBalance := s.DepositBalance + (sub64 s.GasLimit gasUsed : Int) * s.GasPrice }

/-- `subscriptionRLP`: the canonical nine-field persisted tuple; the `ID`
field is excluded. -/
structure SubscriptionRLP where
  TargetContract : Nat
  EventSignature : Nat
  SubscriberContract : Nat
  CallbackAddress : Nat
  CallbackSelector : List Nat
  GasLimit : Nat
  GasPrice : Int
  DepositBalance : Int
  Active : Bool
deriving Repr, DecidableEq

/-- `Subscription.EncodeRLP`: build the nine-field `subscriptionRLP` tuple
from the record. (The byte-level `rlp.Encode` of that tuple is an external
collaborator assumed to be inverted exactly by `rlp.Decode`.) -/
def Subscription.encodeRLP (s : Subscription) : SubscriptionRLP :=
  { TargetContract := s.TargetContract
    EventSignature := s.EventSignature
    SubscriberContract := s.SubscriberContract
    CallbackAddress := s.CallbackAddress
    CallbackSelector := s.CallbackSelector
    GasLimit := s.GasLimit
    GasPrice := s.GasPrice
    DepositBalance := s.DepositBalance
    Active := s.Active }

/-- `Subscription.DecodeRLP`: read back the nine fields and recompute `ID`
from `(TargetContract, EventSignature, SubscriberContract)`. -/
def Subscription.decodeRLP (r : SubscriptionRLP) : Subscription :=
  { ID := ComputeSubscriptionID r.TargetContract r.EventSignature r.SubscriberContract
    TargetContract := r.TargetContract
    EventSignature := r.EventSignature
    SubscriberContract := r.SubscriberContract
    CallbackAddress := r.CallbackAddress
    CallbackSelector := r.CallbackSelector
    GasLimit := r.GasLimit
    GasPrice := r.GasPrice
    DepositBalance := r.DepositBalance
    Active := r.Active }

/-- `CallbackExecution`: transient descriptor of one pending callback. -/
structure CallbackExecution where
  SubscriptionID : Nat
  SubscriberAddress : Nat
  CallbackAddress : Nat
  CallbackData : List Nat
  GasLimit : Nat
  GasPrice : Int
  OriginalOrigin : Nat
deriving Repr, DecidableEq

/-- A state log entry (`types.Log`): emitting address, topic hashes, payload. -/
structure Log where
  Address : Nat
  Topics : List Nat
  Data : List Nat
deriving Repr, DecidableEq

/-- Modelled from the spec: `params.SubscriptionManagerAddress`, the
well-known registry contract address (defined outside the given sources);
an arbitrary fixed address constant. -/
def SubscriptionManagerAddress : Nat := 8082

/-- Modelled from the spec: `common.BytesToHash([]byte("SubscriptionCreated"))`,
the topic-0 kind hash of the created log (`BytesToHash` is an external
collaborator); the three kind hashes are modelled as distinct constants. -/
def SubscriptionCreatedTopic : Nat := 101

/-- Modelled from the spec: `common.BytesToHash([]byte("SubscriptionRemoved"))`. -/
def SubscriptionRemovedTopic : Nat := 102

/-- Modelled from the spec: `common.BytesToHash([]byte("InsufficientDeposit"))`. -/
def InsufficientDepositTopic : Nat := 103

/-- Registry state: insertion-ordered subscription store keyed by identity,
plus the appended logs. -/
structure SMState where
  store : List (Nat × Subscription)
  logs : List Log
deriving Repr, DecidableEq

/-- Key lookup in the association list: first entry whose key matches. -/
def lookupSub : List (Nat × Subscription) → Nat → Option Subscription
  | [], _ => none
  | (k, v) :: rest, id => if k = id then some v else lookupSub rest id

/-- Overwrite the entry for `id` (or append a new one), preserving order. -/
def setAssoc : List (Nat × Subscription) → Nat → Subscription → List (Nat × Subscription)
  | [], id, s => [(id, s)]
  | (k, v) :: rest, id, s =>
    if k = id then (id, s) :: rest else (k, v) :: setAssoc rest id s

/-- `StateDB.GetSubscription`. -/
def getSubscription (st : SMState) (id : Nat) : Option Subscription :=
  lookupSub st.store id

/-- `StateDB.SetSubscription`: fully overwrites the record for `id`. -/
def setSubscription (st : SMState) (id : Nat) (s : Subscription) : SMState :=
  { st with store := setAssoc st.store id s }

/-- `StateDB.AddLog`: append a log entry. -/
def addLog (st : SMState) (l : Log) : SMState :=
  { st with logs := st.logs ++ [l] }

/-- Modelled from the spec: the registry enumeration
`listByTargetAndSignature` (`StateDB.GetSubscribers`; only the interface
is visible in the sources): all records matching `(target, eventSignature)`,
in stable store order. -/
def getSubscribers (st : SMState) (target eventSig : Nat) : List Subscription :=
  (st.store.filter
    (fun p => p.2.TargetContract == target && p.2.EventSignature == eventSig)).map Prod.snd

/-- `SubscriptionManager.Subscribe`: idempotent no-op while an active record
exists; otherwise store a fresh record (zero deposit, active) and emit the
created log. Never returns an error. -/
def SubscriptionManager.Subscribe (st : SMState)
    (target eventSig subscriber callback : Nat) (selector : List Nat)
    (gasLimit : Nat) (gasPrice : Int) : Nat × SMState :=
  let subID := ComputeSubscriptionID target eventSig subscriber
  if ((getSubscription st subID).map Subscription.Active).getD false then
    (subID, st)
  else
    let sub : Subscription :=
      { ID := subID
        TargetContract := target
        EventSignature := eventSig
        SubscriberContract := subscriber
        CallbackAddress := callback
        CallbackSelector := selector
        GasLimit := gasLimit
        GasPrice := gasPrice
        DepositBalance := 0
        Active := true }
    let st1 := setSubscription st subID sub
    let st2 := addLog st1
      { Address := SubscriptionManagerAddress
        Topics := [SubscriptionCreatedTopic, subID, target, subscriber]
        Data := [eventSig] }
    (subID, st2)

/-- `SubscriptionManager.Unsubscribe`: no-op when missing or inactive;
otherwise flip `Active` to `false` and emit the removed log. Never returns
an error. -/
def SubscriptionManager.Unsubscribe (st : SMState)
    (target eventSig subscriber : Nat) : SMState :=
  let subID := ComputeSubscriptionID target eventSig subscriber
  match getSubscription st subID with
  | none => st
  | some sub =>
    if sub.Active then
      let st1 := setSubscription st subID { sub with Active := false }
      addLog st1
        { Address := SubscriptionManagerAddress
          Topics := [SubscriptionRemovedTopic, subID]
          Data := [] }
    else
      st

/-- The loop body of `NotifySubscribers` over the retrieved subscriber
list: skip inactive records; log and skip underfunded records; otherwise
deduct the gas cost, persist, and emit a `CallbackExecution`. -/
def SubscriptionManager.notifyLoop (eventData : List Nat) (origin : Nat) :
    List Subscription → SMState → List CallbackExecution × SMState
  | [], st => ([], st)
  | sub :: rest, st =>
    if !sub.Active then
      SubscriptionManager.notifyLoop eventData origin rest st
    else if !sub.HasSufficientDeposit then
      SubscriptionManager.notifyLoop eventData origin rest
        (addLog st
          { Address := SubscriptionManagerAddress
            Topics := [InsufficientDepositTopic, sub.ID]
            Data := [] })
    else
      let r := sub.DeductGas
      if !r.1 then
        SubscriptionManager.notifyLoop eventData origin rest st
      else
        let st1 := setSubscription st r.2.ID r.2
        let cb : CallbackExecution :=
          { SubscriptionID := r.2.ID
            SubscriberAddress := r.2.SubscriberContract
            CallbackAddress := r.2.CallbackAddress
            CallbackData := r.2.CallbackSelector ++ eventData
            GasLimit := r.2.GasLimit
            GasPrice := r.2.GasPrice
            OriginalOrigin := origin }
        let out := SubscriptionManager.notifyLoop eventData origin rest st1
        (cb :: out.1, out.2)

/-- `SubscriptionManager.NotifySubscribers`: run the loop over the
subscribers retrieved for `(target, eventSig)`. -/
def SubscriptionManager.NotifySubscribers (st : SMState)
    (target eventSig : Nat) (eventData : List Nat) (origin : Nat) :
    List CallbackExecution × SMState :=
  SubscriptionManager.notifyLoop eventData origin (getSubscribers st target eventSig) st

/-- The manager's error taxonomy. -/
inductive SMError where
  | InvalidSubscription
  | InsufficientDeposit
deriving Repr, DecidableEq

/-- `SubscriptionManager.Deposit`: `ErrInvalidSubscription` when the record
is missing (state untouched); otherwise add `amount` to the deposit balance
and persist. The pair carries the resulting state and the returned error. -/
def SubscriptionManager.Deposit (st : SMState) (subID : Nat) (amount : Int) :
    SMState × Option SMError :=
  match getSubscription st subID with
  | none => (st, some .InvalidSubscription)
  | some sub =>
    (setSubscription st subID
      { sub with DepositBalance := sub.DepositBalance + amount }, none)

/-- `SubscriptionManager.Withdraw`: `ErrInvalidSubscription` when missing;
`ErrInsufficientDeposit` when `DepositBalance < amount` (no mutation);
otherwise subtract `amount` and persist. -/
def SubscriptionManager.Withdraw (st : SMState) (subID : Nat) (amount : Int) :
    SMState × Option SMError :=
  match getSubscription st subID with
  | none => (st, some .InvalidSubscription)
  | some sub =>
    if sub.DepositBalance < amount then
      (st, some .InsufficientDeposit)
    else
      (setSubscription st subID
        { sub with DepositBalance := sub.DepositBalance - amount }, none)

/-- `SubscriptionManager.GetBalance`: the deposit balance, or `0` when the
record is missing. Never fails. -/
def SubscriptionManager.GetBalance (st : SMState) (subID : Nat) : Int :=
  match getSubscription st subID with
  | none => 0
  | some sub => sub.DepositBalance

/-- `SubscriptionManager.GetSubscription`: pure read-through. -/
def SubscriptionManager.GetSubscription (st : SMState) (subID : Nat) :
    Option Subscription :=
  getSubscription st subID

/-- `SubscriptionManager.RefundGas`: no-op when the record is missing;
otherwise apply the entity-level refund and persist. -/
def SubscriptionManager.RefundGas (st : SMState) (subID : Nat) (gasUsed : Nat) :
    SMState :=
  match getSubscription st subID with
  | none => st
  | some sub => setSubscription st subID (sub.RefundGas gasUsed)

/-- `SubscriptionManager.UpdateSubscription`: `ErrInvalidSubscription` when
missing or inactive (state untouched); otherwise overwrite
`GasLimit`/`GasPrice` and persist. -/
def SubscriptionManager.UpdateSubscription (st : SMState) (subID : Nat)
    (gasLimit : Nat) (gasPrice : Int) : SMState × Option SMError :=
  match getSubscription st subID with
  | none => (st, some .InvalidSubscription)
  | some sub =>
    if sub.Active then
      (setSubscription st subID
        { sub with GasLimit := gasLimit, GasPrice := gasPrice }, none)
    else
      (st, some .InvalidSubscription)

/-! ### Store predicates -/

/-- Every stored record has a non-negative deposit balance. -/
def AllBalancesNonneg (st : SMState) : Prop :=
  ∀ p ∈ st.store, 0 ≤ p.2.DepositBalance

/-- Every stored record has a non-negative gas price (the data-model
invariant on `gasPrice`). -/
def AllPricesNonneg (st : SMState) : Prop :=
  ∀ p ∈ st.store, 0 ≤ p.2.GasPrice

/-- Registry well-formedness: store keys are pairwise distinct and every
record is stored under its own identity. -/
def WFStore (st : SMState) : Prop :=
  (st.store.map Prod.fst).Nodup ∧ ∀ p ∈ st.store, p.1 = p.2.ID

instance (st : SMState) : Decidable (AllBalancesNonneg st) := by
  unfold AllBalancesNonneg; infer_instance

instance (st : SMState) : Decidable (AllPricesNonneg st) := by
  unfold AllPricesNonneg; infer_instance

instance (st : SMState) : Decidable (WFStore st) := by
  unfold WFStore; exact instDecidableAnd

/-! ### Store lemmas -/

theorem lookupSub_setAssoc :
    ∀ (l : List (Nat × Subscription)) (id : Nat) (s : Subscription) (j : Nat),
      lookupSub (setAssoc l id s) j = if j = id then some s else lookupSub l j
  | [], id, s, j => by
    rcases eq_or_ne j id with h | h
    · subst h; simp [setAssoc, lookupSub]
    · simp [setAssoc, lookupSub, h, h.symm]
  | (k, v) :: rest, id, s, j => by
    rcases eq_or_ne k id with hk | hk
    · subst hk
      rcases eq_or_ne j k with hj | hj
      · subst hj; simp [setAssoc, lookupSub]
      · simp [setAssoc, lookupSub, hj, hj.symm]
    · rcases eq_or_ne k j with hkj | hkj
      · subst hkj
        have hj : k ≠ id := hk
        simp [setAssoc, lookupSub, hk, hj]
      · simp [setAssoc, lookupSub, hk, hkj, lookupSub_setAssoc rest id s j]

theorem getSubscription_set (st : SMState) (id : Nat) (s : Subscription) (j : Nat) :
    getSubscription (setSubscription st id s) j =
      if j = id then some s else getSubscription st j :=
  lookupSub_setAssoc st.store id s j

theorem getSubscription_addLog (st : SMState) (l : Log) (j : Nat) :
    getSubscription (addLog st l) j = getSubscription st j := rfl

theorem lookupSub_mem :
    ∀ {l : List (Nat × Subscription)} {id : Nat} {v : Subscription},
      lookupSub l id = some v → (id, v) ∈ l
  | [], _, _, h => by simp [lookupSub] at h
  | (k, w) :: rest, id, v, h => by
    simp only [lookupSub] at h
    split at h
    next hk =>
      subst hk
      injection h with hwv
      subst hwv
      exact List.mem_cons_self _ _
    next hk =>
      exact List.mem_cons_of_mem _ (lookupSub_mem h)

theorem mem_setAssoc :
    ∀ {l : List (Nat × Subscription)} {id : Nat} {s : Subscription}
      {p : Nat × Subscription},
      p ∈ setAssoc l id s → p = (id, s) ∨ p ∈ l
  | [], id, s, p, h => by
    simp [setAssoc] at h
    exact Or.inl h
  | (k, v) :: rest, id, s, p, h => by
    simp only [setAssoc] at h
    split at h
    next hk =>
      rcases List.mem_cons.mp h with h1 | h1
      · exact Or.inl h1
      · exact Or.inr (List.mem_cons_of_mem _ h1)
    next hk =>
      rcases List.mem_cons.mp h with h1 | h1
      · exact Or.inr (by simp [h1])
      · rcases mem_setAssoc h1 with h2 | h2
        · exact Or.inl h2
        · exact Or.inr (List.mem_cons_of_mem _ h2)

theorem lookupSub_of_mem :
    ∀ {l : List (Nat × Subscription)}, (l.map Prod.fst).Nodup →
      ∀ {k : Nat} {v : Subscription}, (k, v) ∈ l → lookupSub l k = some v
  | [], _, _, _, hm => by simp at hm
  | (k0, v0) :: rest, hnd, k, v, hm => by
    rcases List.mem_cons.mp hm with h | h
    · rw [Prod.mk.injEq] at h
      simp [lookupSub, h.1, h.2]
    · have hk0 : k0 ≠ k := by
        intro hkk
        subst hkk
        have : k0 ∈ rest.map Prod.fst := List.mem_map.mpr ⟨(k0, v), h, rfl⟩
        exact (List.nodup_cons.mp (by simpa using hnd)).1 this
      have hrest : (rest.map Prod.fst).Nodup := (List.nodup_cons.mp (by simpa using hnd)).2
      simp only [lookupSub, if_neg hk0]
      exact lookupSub_of_mem hrest h

/-! ### Arithmetic lemmas for the wrapping `uint64` subtraction -/

theorem sub64_of_le (a b : Nat) (hb : b ≤ a) (ha : a < 2 ^ 64) :
    sub64 a b = a - b := by
  have h64 : (2 : Nat) ^ 64 = 18446744073709551616 := by norm_num
  unfold sub64
  rw [h64] at *
  omega

theorem sub64_cast_int (a b : Nat) :
    ((sub64 a b : Nat) : Int) = ((a : Int) - b) % 2 ^ 64 := by
  have h64 : (2 : Nat) ^ 64 = 18446744073709551616 := by norm_num
  have h64i : (2 : Int) ^ 64 = 18446744073709551616 := by norm_num
  unfold sub64
  rw [h64] at *
  rw [h64i]
  omega

/-! ### Notification-loop characterization -/

/-- The selection guard of the notification loop: active and sufficiently
funded. -/
def selectedFn (s : Subscription) : Bool :=
  s.Active && s.HasSufficientDeposit

/-- The record as persisted after a successful gas deduction. -/
def deductedOf (s : Subscription) : Subscription :=
  { s with DepositBalance := s.DepositBalance - s.GasCost }

/-- The callback descriptor emitted for a selected subscription. -/
def execOf (eventData : List Nat) (origin : Nat) (s : Subscription) : CallbackExecution :=
  { SubscriptionID := s.ID
    SubscriberAddress := s.SubscriberContract
    CallbackAddress := s.CallbackAddress
    CallbackData := s.CallbackSelector ++ eventData
    GasLimit := s.GasLimit
    GasPrice := s.GasPrice
    OriginalOrigin := origin }

theorem deductGas_fst (s : Subscription) :
    (s.DeductGas).1 = s.HasSufficientDeposit := by
  unfold Subscription.DeductGas
  split <;> simp_all

theorem deductGas_of_sufficient (s : Subscription)
    (h : s.HasSufficientDeposit = true) :
    s.DeductGas = (true, deductedOf s) := by
  simp [Subscription.DeductGas, h, deductedOf]

theorem selectedFn_iff (s : Subscription) :
    selectedFn s = true ↔ s.Active = true ∧ s.GasCost ≤ s.DepositBalance := by
  simp [selectedFn, Subscription.HasSufficientDeposit]

theorem notifyLoop_fst (eventData : List Nat) (origin : Nat) :
    ∀ (subs : List Subscription) (st : SMState),
      (SubscriptionManager.notifyLoop eventData origin subs st).1 =
        (subs.filter selectedFn).map (execOf eventData origin)
  | [], _ => rfl
  | sub :: rest, st => by
    by_cases ha : sub.Active
    · by_cases hs : sub.HasSufficientDeposit
      · have hd := deductGas_of_sufficient sub hs
        simp [SubscriptionManager.notifyLoop, ha, hs, hd, selectedFn, execOf, deductedOf,
          notifyLoop_fst eventData origin rest]
      · simp [SubscriptionManager.notifyLoop, ha, hs, selectedFn,
          notifyLoop_fst eventData origin rest]
    · simp [SubscriptionManager.notifyLoop, ha, selectedFn,
        notifyLoop_fst eventData origin rest]

theorem notifyLoop_store_untouched (eventData : List Nat) (origin : Nat) :
    ∀ (subs : List Subscription) (st : SMState) (j : Nat),
      (∀ s ∈ subs, s.ID ≠ j) →
      getSubscription (SubscriptionManager.notifyLoop eventData origin subs st).2 j =
        getSubscription st j
  | [], _, _, _ => rfl
  | sub :: rest, st, j, h => by
    have hj : sub.ID ≠ j := h sub (List.mem_cons_self _ _)
    have hrest : ∀ s ∈ rest, s.ID ≠ j := fun s hs => h s (List.mem_cons_of_mem _ hs)
    by_cases ha : sub.Active
    · by_cases hs : sub.HasSufficientDeposit
      · have hd := deductGas_of_sufficient sub hs
        simp only [SubscriptionManager.notifyLoop, ha, hs, hd, Bool.not_true,
          Bool.false_eq_true, if_false]
        rw [notifyLoop_store_untouched eventData origin rest _ j hrest]
        rw [getSubscription_set]
        have hj' : ¬ j = sub.ID := fun hh => hj hh.symm
        simp [deductedOf, hj']
      · simp only [SubscriptionManager.notifyLoop, ha, hs, Bool.not_true, Bool.not_false,
          Bool.false_eq_true, if_false, if_true]
        rw [notifyLoop_store_untouched eventData origin rest _ j hrest]
        rfl
    · have ha' : sub.Active = false := Bool.not_eq_true _ ▸ Bool.eq_false_iff.mpr ha
      simp only [SubscriptionManager.notifyLoop, ha', Bool.not_false, if_true]
      exact notifyLoop_store_untouched eventData origin rest st j hrest

theorem notifyLoop_store_mem (eventData : List Nat) (origin : Nat) :
    ∀ (subs : List Subscription) (st : SMState),
      subs.Pairwise (fun a b => a.ID ≠ b.ID) →
      ∀ sub ∈ subs,
        getSubscription (SubscriptionManager.notifyLoop eventData origin subs st).2 sub.ID =
          if selectedFn sub then some (deductedOf sub)
          else getSubscription st sub.ID
  | [], _, _, sub, hm => absurd hm (List.not_mem_nil _)
  | hd0 :: rest, st, hp, sub, hm => by
    have hphead : ∀ b ∈ rest, hd0.ID ≠ b.ID := (List.pairwise_cons.mp hp).1
    have hptail : rest.Pairwise (fun a b => a.ID ≠ b.ID) := (List.pairwise_cons.mp hp).2
    rcases List.mem_cons.mp hm with heq | hmem
    · subst heq
      have hrest : ∀ s ∈ rest, s.ID ≠ sub.ID := fun s hs => (hphead s hs).symm
      by_cases ha : sub.Active
      · by_cases hs : sub.HasSufficientDeposit
        · have hd := deductGas_of_sufficient sub hs
          have hsel : selectedFn sub = true := by simp [selectedFn, ha, hs]
          simp only [SubscriptionManager.notifyLoop, ha, hs, hd, Bool.not_true,
            Bool.false_eq_true, if_false, hsel, if_true]
          rw [notifyLoop_store_untouched eventData origin rest _ sub.ID hrest]
          rw [getSubscription_set]
          simp [deductedOf]
        · have hs' : sub.HasSufficientDeposit = false :=
            Bool.eq_false_iff.mpr hs
          have hsel : selectedFn sub = false := by simp [selectedFn, hs']
          simp only [SubscriptionManager.notifyLoop, ha, hs', Bool.not_true, Bool.not_false,
            Bool.false_eq_true, if_false, if_true, hsel]
          rw [notifyLoop_store_untouched eventData origin rest _ sub.ID hrest]
          rfl
      · have ha' : sub.Active = false := Bool.eq_false_iff.mpr ha
        have hsel : selectedFn sub = false := by simp [selectedFn, ha']
        simp only [SubscriptionManager.notifyLoop, ha', Bool.not_false, if_true, hsel,
          Bool.false_eq_true, if_false]
        exact notifyLoop_store_untouched eventData origin rest st sub.ID
          (fun s hs => (hphead s hs).symm) ▸ rfl
    · have hne : hd0.ID ≠ sub.ID := hphead sub hmem
      by_cases ha : hd0.Active
      · by_cases hs : hd0.HasSufficientDeposit
        · have hd := deductGas_of_sufficient hd0 hs
          simp only [SubscriptionManager.notifyLoop, ha, hs, hd, Bool.not_true,
            Bool.false_eq_true, if_false]
          rw [notifyLoop_store_mem eventData origin rest _ hptail sub hmem]
          rw [getSubscription_set]
          have hne' : ¬ sub.ID = hd0.ID := fun hh => hne hh.symm
          simp [deductedOf, hne']
        · have hs' : hd0.HasSufficientDeposit = false := Bool.eq_false_iff.mpr hs
          simp only [SubscriptionManager.notifyLoop, ha, hs', Bool.not_true, Bool.not_false,
            Bool.false_eq_true, if_false, if_true]
          rw [notifyLoop_store_mem eventData origin rest _ hptail sub hmem]
          rfl
      · have ha' : hd0.Active = false := Bool.eq_false_iff.mpr ha
        simp only [SubscriptionManager.notifyLoop, ha', Bool.not_false, if_true]
        exact notifyLoop_store_mem eventData origin rest st hptail sub hmem

theorem getSubscribers_pairwise (st : SMState) (hWF : WFStore st)
    (target eventSig : Nat) :
    (getSubscribers st target eventSig).Pairwise (fun a b => a.ID ≠ b.ID) := by
  have hkeys : (st.store.map Prod.fst).Nodup := hWF.1
  have hids : ∀ p ∈ st.store, p.1 = p.2.ID := hWF.2
  have h1 : st.store.Pairwise (fun p q => p.1 ≠ q.1) := by
    rw [List.Nodup, List.pairwise_map] at hkeys
    exact hkeys
  have h2 : (st.store.filter
      (fun p => p.2.TargetContract == target && p.2.EventSignature == eventSig)).Pairwise
      (fun p q => p.1 ≠ q.1) := List.Pairwise.filter _ h1
  have h3 : (st.store.filter
      (fun p => p.2.TargetContract == target && p.2.EventSignature == eventSig)).Pairwise
      (fun p q => p.2.ID ≠ q.2.ID) := by
    refine h2.imp_of_mem ?_
    intro p q hpm hqm hne
    have hp := hids p (List.mem_of_mem_filter hpm)
    have hq := hids q (List.mem_of_mem_filter hqm)
    rw [← hp, ← hq]
    exact hne
  unfold getSubscribers
  rw [List.pairwise_map]
  exact h3

theorem getSubscription_of_mem_subscribers (st : SMState) (hWF : WFStore st)
    (target eventSig : Nat) (sub : Subscription)
    (hm : sub ∈ getSubscribers st target eventSig) :
    getSubscription st sub.ID = some sub := by
  unfold getSubscribers at hm
  rcases List.mem_map.mp hm with ⟨p, hpm, hps⟩
  have hpstore := List.mem_of_mem_filter hpm
  have hid := hWF.2 p hpstore
  have : (sub.ID, sub) ∈ st.store := by
    rw [← hps, ← hid]
    exact hpstore
  exact lookupSub_of_mem hWF.1 this

/-! ### Claim theorems -/

/-- C2: for every subscription id with an existing record and every amount,
`Withdraw(id, amount)` succeeds iff `amount ≤` the current deposit balance;
on success the new balance is the old balance minus `amount`; on failure the
error is `InsufficientDeposit` and the state (hence the balance) is
unchanged. -/
theorem withdraw_safety (st : SMState) (id : Nat) (sub : Subscription) (amount : Int)
    (hget : getSubscription st id = some sub) :
    ((SubscriptionManager.Withdraw st id amount).2 = none ↔
       amount ≤ sub.DepositBalance) ∧
    (amount ≤ sub.DepositBalance →
      SubscriptionManager.GetBalance (SubscriptionManager.Withdraw st id amount).1 id =
        sub.DepositBalance - amount) ∧
    (¬ amount ≤ sub.DepositBalance →
      (SubscriptionManager.Withdraw st id amount).2 = some SMError.InsufficientDeposit ∧
      (SubscriptionManager.Withdraw st id amount).1 = st) := by
  by_cases h : sub.DepositBalance < amount
  · have h' : ¬ amount ≤ sub.DepositBalance := not_le.mpr h
    simp [SubscriptionManager.Withdraw, hget, h, h']
  · have h' : amount ≤ sub.DepositBalance := not_lt.mp h
    simp [SubscriptionManager.Withdraw, hget, h, h',
      SubscriptionManager.GetBalance, getSubscription_set]

/-- C9: `Deposit`, `Withdraw` and `UpdateSubscription` on a never-created
identity fail with `InvalidSubscription` and leave the state unchanged,
while `GetBalance` on the same identity returns `0` without failing. -/
theorem invalid_identity_errors (st : SMState) (id : Nat)
    (h : getSubscription st id = none) :
    (∀ amount, SubscriptionManager.Deposit st id amount =
       (st, some SMError.InvalidSubscription)) ∧
    (∀ amount, SubscriptionManager.Withdraw st id amount =
       (st, some SMError.InvalidSubscription)) ∧
    (∀ gasLimit gasPrice, SubscriptionManager.UpdateSubscription st id gasLimit gasPrice =
       (st, some SMError.InvalidSubscription)) ∧
    SubscriptionManager.GetBalance st id = 0 := by
  refine ⟨fun amount => ?_, fun amount => ?_, fun gasLimit gasPrice => ?_, ?_⟩ <;>
    simp [SubscriptionManager.Deposit, SubscriptionManager.Withdraw,
      SubscriptionManager.UpdateSubscription, SubscriptionManager.GetBalance, h]

/-- C4: with an existing record and `gasUsed ≤ gasLimit` (and `gasLimit` in
the `uint64` range, as in Go), `RefundGas(id, gasUsed)` increases the
deposit balance by exactly `(gasLimit − gasUsed) * gasPrice`, computed in
exact arbitrary-precision arithmetic, and changes no other field. -/
theorem refundGas_exact (st : SMState) (id : Nat) (sub : Subscription) (gasUsed : Nat)
    (hget : getSubscription st id = some sub)
    (hused : gasUsed ≤ sub.GasLimit) (hlim : sub.GasLimit < 2 ^ 64) :
    getSubscription (SubscriptionManager.RefundGas st id gasUsed) id =
      some { sub with DepositBalance :=
        sub.DepositBalance + ((sub.GasLimit - gasUsed : Nat) : Int) * sub.GasPrice } := by
  simp only [SubscriptionManager.RefundGas, hget, Subscription.RefundGas,
    getSubscription_set, if_pos rfl]
  rw [sub64_of_le _ _ hused hlim]
  simp

/-- C5: `RefundGas` performs the `gasLimit − gasUsed` subtraction in
`uint64`, without validating `gasUsed ≤ gasLimit`; when `gasUsed > gasLimit`
(operands in `uint64` range) the subtraction wraps modulo `2 ^ 64`, so the
amount added to the balance is `((gasLimit − gasUsed) mod 2 ^ 64) * gasPrice`
— and the wrapped factor is strictly positive, not a failure or a
saturation to zero. -/
theorem refundGas_underflow_wraps (st : SMState) (id : Nat) (sub : Subscription)
    (gasUsed : Nat) (hget : getSubscription st id = some sub)
    (hgt : sub.GasLimit < gasUsed)
    (hlim : sub.GasLimit < 2 ^ 64) (hu : gasUsed < 2 ^ 64) :
    getSubscription (SubscriptionManager.RefundGas st id gasUsed) id =
      some { sub with DepositBalance :=
        sub.DepositBalance + (((sub.GasLimit : Int) - gasUsed) % 2 ^ 64) * sub.GasPrice } ∧
    0 < ((sub.GasLimit : Int) - gasUsed) % 2 ^ 64 := by
  constructor
  · simp only [SubscriptionManager.RefundGas, hget, Subscription.RefundGas,
      getSubscription_set, if_pos rfl]
    rw [sub64_cast_int]
    simp
  · have h64i : (2 : Int) ^ 64 = 18446744073709551616 := by norm_num
    rw [h64i] at *
    omega

/-- C7: encoding a `Subscription` to the canonical nine-field persisted
tuple and decoding it back reproduces every field except `ID`, which the
decoder recomputes from `(TargetContract, EventSignature,
SubscriberContract)`; when the original record satisfied the identity
invariant, the round trip is the identity. -/
theorem subscription_rlp_roundtrip (s : Subscription) :
    Subscription.decodeRLP s.encodeRLP =
      { s with ID := ComputeSubscriptionID s.TargetContract s.EventSignature
                       s.SubscriberContract } ∧
    (s.ID = ComputeSubscriptionID s.TargetContract s.EventSignature s.SubscriberContract →
      Subscription.decodeRLP s.encodeRLP = s) := by
  constructor
  · rfl
  · intro h
    cases s with
    | mk ID tc es sc ca sel gl gp db act =>
      simp only [Subscription.decodeRLP, Subscription.encodeRLP] at *
      simp [h]

/-- C3: when an existing record for the identity is inactive, calling
`Subscribe` again replaces the stored record wholesale with a fresh record
built from the new arguments, with `DepositBalance` reset to `0` and
`Active` set to `true` (the prior record's balance is discarded). -/
theorem resubscribe_overwrites_inactive (st : SMState)
    (target eventSig subscriber callback : Nat) (selector : List Nat)
    (gasLimit : Nat) (gasPrice : Int) (old : Subscription)
    (hget : getSubscription st (ComputeSubscriptionID target eventSig subscriber) =
      some old)
    (hinact : old.Active = false) :
    (SubscriptionManager.Subscribe st target eventSig subscriber callback selector
        gasLimit gasPrice).1 = ComputeSubscriptionID target eventSig subscriber ∧
    getSubscription
      (SubscriptionManager.Subscribe st target eventSig subscriber callback selector
        gasLimit gasPrice).2
      (ComputeSubscriptionID target eventSig subscriber) =
      some { ID := ComputeSubscriptionID target eventSig subscriber
             TargetContract := target
             EventSignature := eventSig
             SubscriberContract := subscriber
             CallbackAddress := callback
             CallbackSelector := selector
             GasLimit := gasLimit
             GasPrice := gasPrice
             DepositBalance := 0
             Active := true } := by
  constructor
  · simp [SubscriptionManager.Subscribe, hget, hinact]
  · simp [SubscriptionManager.Subscribe, hget, hinact,
      getSubscription_addLog, getSubscription_set]

/-- A `Subscribe` call made while an active record exists is a pure no-op
returning the existing identity. -/
theorem subscribe_noop (st : SMState)
    (target eventSig subscriber callback : Nat) (selector : List Nat)
    (gasLimit : Nat) (gasPrice : Int)
    (h : ((getSubscription st (ComputeSubscriptionID target eventSig subscriber)).map
        Subscription.Active).getD false = true) :
    SubscriptionManager.Subscribe st target eventSig subscriber callback selector
        gasLimit gasPrice =
      (ComputeSubscriptionID target eventSig subscriber, st) := by
  simp [SubscriptionManager.Subscribe, h]

/-- C6: when no active record exists for the identity, two successive
`Subscribe` calls with identical arguments return the same identity, the
first call appends exactly one created-log entry, the second call performs
no mutation at all (same state out as in), and the deposit balance is `0`
after both calls. -/
theorem subscribe_idempotent (st : SMState)
    (target eventSig subscriber callback : Nat) (selector : List Nat)
    (gasLimit : Nat) (gasPrice : Int)
    (h : ((getSubscription st (ComputeSubscriptionID target eventSig subscriber)).map
        Subscription.Active).getD false = false) :
    ∃ st1 : SMState,
      SubscriptionManager.Subscribe st target eventSig subscriber callback selector
          gasLimit gasPrice =
        (ComputeSubscriptionID target eventSig subscriber, st1) ∧
      SubscriptionManager.Subscribe st1 target eventSig subscriber callback selector
          gasLimit gasPrice =
        (ComputeSubscriptionID target eventSig subscriber, st1) ∧
      st1.logs = st.logs ++
        [{ Address := SubscriptionManagerAddress
           Topics := [SubscriptionCreatedTopic,
             ComputeSubscriptionID target eventSig subscriber, target, subscriber]
           Data := [eventSig] }] ∧
      SubscriptionManager.GetBalance st1
        (ComputeSubscriptionID target eventSig subscriber) = 0 := by
  refine ⟨(SubscriptionManager.Subscribe st target eventSig subscriber callback selector
    gasLimit gasPrice).2, ?_, ?_, ?_, ?_⟩
  · simp [SubscriptionManager.Subscribe, h]
  · have hg1 : getSubscription
        (SubscriptionManager.Subscribe st target eventSig subscriber callback selector
          gasLimit gasPrice).2
        (ComputeSubscriptionID target eventSig subscriber) =
        some { ID := ComputeSubscriptionID target eventSig subscriber
               TargetContract := target
               EventSignature := eventSig
               SubscriberContract := subscriber
               CallbackAddress := callback
               CallbackSelector := selector
               GasLimit := gasLimit
               GasPrice := gasPrice
               DepositBalance := 0
               Active := true } := by
      simp [SubscriptionManager.Subscribe, h, getSubscription_addLog, getSubscription_set]
    apply subscribe_noop
    rw [hg1]
    rfl
  · simp [SubscriptionManager.Subscribe, h, addLog, setSubscription]
  · have hg1 : getSubscription
        (SubscriptionManager.Subscribe st target eventSig subscriber callback selector
          gasLimit gasPrice).2
        (ComputeSubscriptionID target eventSig subscriber) =
        some { ID := ComputeSubscriptionID target eventSig subscriber
               TargetContract := target
               EventSignature := eventSig
               SubscriberContract := subscriber
               CallbackAddress := callback
               CallbackSelector := selector
               GasLimit := gasLimit
               GasPrice := gasPrice
               DepositBalance := 0
               Active := true } := by
      simp [SubscriptionManager.Subscribe, h, getSubscription_addLog, getSubscription_set]
    simp [SubscriptionManager.GetBalance, hg1]

/-- C1: `NotifySubscribers` returns no `CallbackExecution` for an inactive
subscription or one whose deposit balance is below `gasLimit * gasPrice`;
for every enumerated subscription it does select, the persisted balance
after the call is the balance before the call minus `gasLimit * gasPrice`
exactly, while skipped subscriptions' balances are unchanged. -/
theorem notifySubscribers_selection (st : SMState) (hWF : WFStore st)
    (target eventSig : Nat) (eventData : List Nat) (origin : Nat) :
    (∀ cb ∈ (SubscriptionManager.NotifySubscribers st target eventSig eventData origin).1,
       ∃ sub ∈ getSubscribers st target eventSig,
         cb.SubscriptionID = sub.ID ∧ sub.Active = true ∧
         sub.GasCost ≤ sub.DepositBalance) ∧
    (∀ sub ∈ getSubscribers st target eventSig,
       sub.Active = true → sub.GasCost ≤ sub.DepositBalance →
       SubscriptionManager.GetBalance
           (SubscriptionManager.NotifySubscribers st target eventSig eventData origin).2
           sub.ID =
         SubscriptionManager.GetBalance st sub.ID - sub.GasCost) ∧
    (∀ sub ∈ getSubscribers st target eventSig,
       ¬ (sub.Active = true ∧ sub.GasCost ≤ sub.DepositBalance) →
       SubscriptionManager.GetBalance
           (SubscriptionManager.NotifySubscribers st target eventSig eventData origin).2
           sub.ID =
         SubscriptionManager.GetBalance st sub.ID) := by
  have hpw := getSubscribers_pairwise st hWF target eventSig
  refine ⟨?_, ?_, ?_⟩
  · intro cb hcb
    rw [SubscriptionManager.NotifySubscribers, notifyLoop_fst] at hcb
    rcases List.mem_map.mp hcb with ⟨sub, hsub, hcbeq⟩
    have hsubs := List.mem_of_mem_filter hsub
    have hsel := List.of_mem_filter hsub
    rcases (selectedFn_iff sub).mp hsel with ⟨hact, hbal⟩
    exact ⟨sub, hsubs, by rw [← hcbeq]; rfl, hact, hbal⟩
  · intro sub hsub hact hbal
    have hsel : selectedFn sub = true := (selectedFn_iff sub).mpr ⟨hact, hbal⟩
    have hstore := notifyLoop_store_mem eventData origin
      (getSubscribers st target eventSig) st hpw sub hsub
    rw [hsel, if_pos rfl] at hstore
    have hbefore := getSubscription_of_mem_subscribers st hWF target eventSig sub hsub
    rw [SubscriptionManager.NotifySubscribers, SubscriptionManager.GetBalance, hstore,
      SubscriptionManager.GetBalance, hbefore]
    rfl
  · intro sub hsub hnotsel
    have hsel : selectedFn sub = false := by
      rcases Bool.eq_false_or_eq_true (selectedFn sub) with h | h
      · exact absurd ((selectedFn_iff sub).mp h) hnotsel
      · exact h
    have hstore := notifyLoop_store_mem eventData origin
      (getSubscribers st target eventSig) st hpw sub hsub
    rw [hsel] at hstore
    simp only [Bool.false_eq_true, if_false] at hstore
    rw [SubscriptionManager.NotifySubscribers, SubscriptionManager.GetBalance, hstore,
      SubscriptionManager.GetBalance]

/-- The notification loop with its `DeductGas`-failure skip branch replaced
by an observably different sentinel behavior (halt after appending a
sentinel log). Equality with the real loop proves the branch unreachable. -/
def SubscriptionManager.notifyLoopSentinel (eventData : List Nat) (origin : Nat) :
    List Subscription → SMState → List CallbackExecution × SMState
  | [], st => ([], st)
  | sub :: rest, st =>
    if !sub.Active then
      SubscriptionManager.notifyLoopSentinel eventData origin rest st
    else if !sub.HasSufficientDeposit then
      SubscriptionManager.notifyLoopSentinel eventData origin rest
        (addLog st
          { Address := SubscriptionManagerAddress
            Topics := [InsufficientDepositTopic, sub.ID]
            Data := [] })
    else
      let r := sub.DeductGas
      if !r.1 then
        ([], addLog st { Address := 999999, Topics := [], Data := [] })
      else
        let st1 := setSubscription st r.2.ID r.2
        let cb : CallbackExecution :=
          { SubscriptionID := r.2.ID
            SubscriberAddress := r.2.SubscriberContract
            CallbackAddress := r.2.CallbackAddress
            CallbackData := r.2.CallbackSelector ++ eventData
            GasLimit := r.2.GasLimit
            GasPrice := r.2.GasPrice
            OriginalOrigin := origin }
        let out := SubscriptionManager.notifyLoopSentinel eventData origin rest st1
        (cb :: out.1, out.2)

/-- C10: inside `NotifySubscribers`, `DeductGas` is only invoked on a
subscription for which `HasSufficientDeposit` just returned `true`, and
`DeductGas` succeeds exactly when `HasSufficientDeposit` holds; hence the
loop branch that skips a subscription because `DeductGas` returned `false`
is unreachable — the loop is extensionally equal to a variant in which that
branch has been replaced by an arbitrary sentinel behavior. -/
theorem deductGas_skip_branch_unreachable :
    (∀ s : Subscription, s.HasSufficientDeposit = true → (s.DeductGas).1 = true) ∧
    (∀ (eventData : List Nat) (origin : Nat) (subs : List Subscription) (st : SMState),
      SubscriptionManager.notifyLoop eventData origin subs st =
        SubscriptionManager.notifyLoopSentinel eventData origin subs st) := by
  constructor
  · intro s hs
    rw [deductGas_fst, hs]
  · intro eventData origin subs
    induction subs with
    | nil => intro st; rfl
    | cons sub rest ih =>
      intro st
      by_cases ha : sub.Active
      · by_cases hs : sub.HasSufficientDeposit
        · have hd := deductGas_of_sufficient sub hs
          simp only [SubscriptionManager.notifyLoop, SubscriptionManager.notifyLoopSentinel,
            ha, hs, hd, Bool.not_true, Bool.false_eq_true, if_false]
          rw [ih]
        · have hs' : sub.HasSufficientDeposit = false := Bool.eq_false_iff.mpr hs
          simp only [SubscriptionManager.notifyLoop, SubscriptionManager.notifyLoopSentinel,
            ha, hs', Bool.not_true, Bool.not_false, Bool.false_eq_true, if_false, if_true]
          rw [ih]
      · have ha' : sub.Active = false := Bool.eq_false_iff.mpr ha
        simp only [SubscriptionManager.notifyLoop, SubscriptionManager.notifyLoopSentinel,
          ha', Bool.not_false, if_true]
        rw [ih]

/-! ### Balance-invariant lemmas -/

theorem allBalancesNonneg_set (st : SMState) (id : Nat) (s : Subscription)
    (hB : AllBalancesNonneg st) (hs : 0 ≤ s.DepositBalance) :
    AllBalancesNonneg (setSubscription st id s) := by
  intro p hp
  rcases mem_setAssoc hp with h | h
  · rw [h]
    exact hs
  · exact hB p h

theorem balance_of_getSubscription (st : SMState) (hB : AllBalancesNonneg st)
    {id : Nat} {sub : Subscription} (h : getSubscription st id = some sub) :
    0 ≤ sub.DepositBalance :=
  hB (id, sub) (lookupSub_mem h)

theorem price_of_getSubscription (st : SMState) (hP : AllPricesNonneg st)
    {id : Nat} {sub : Subscription} (h : getSubscription st id = some sub) :
    0 ≤ sub.GasPrice :=
  hP (id, sub) (lookupSub_mem h)

theorem notifyLoop_preserves_nonneg (eventData : List Nat) (origin : Nat) :
    ∀ (subs : List Subscription) (st : SMState), AllBalancesNonneg st →
      AllBalancesNonneg (SubscriptionManager.notifyLoop eventData origin subs st).2
  | [], _, hB => hB
  | sub :: rest, st, hB => by
    by_cases ha : sub.Active
    · by_cases hs : sub.HasSufficientDeposit
      · have hd := deductGas_of_sufficient sub hs
        have hle : sub.GasCost ≤ sub.DepositBalance := by
          simpa [Subscription.HasSufficientDeposit] using hs
        have hok : 0 ≤ (deductedOf sub).DepositBalance := by
          simp only [deductedOf]
          omega
        simp only [SubscriptionManager.notifyLoop, ha, hs, hd, Bool.not_true,
          Bool.false_eq_true, if_false]
        exact notifyLoop_preserves_nonneg eventData origin rest _
          (allBalancesNonneg_set _ _ _ hB hok)
      · have hs' : sub.HasSufficientDeposit = false := Bool.eq_false_iff.mpr hs
        simp only [SubscriptionManager.notifyLoop, ha, hs', Bool.not_true, Bool.not_false,
          Bool.false_eq_true, if_false, if_true]
        exact notifyLoop_preserves_nonneg eventData origin rest _ (fun p hp => hB p hp)
    · have ha' : sub.Active = false := Bool.eq_false_iff.mpr ha
      simp only [SubscriptionManager.notifyLoop, ha', Bool.not_false, if_true]
      exact notifyLoop_preserves_nonneg eventData origin rest st hB

/-- C8: `depositBalance ≥ 0` is an invariant of the manager: starting from
a state whose records have non-negative balances (and, per the data model,
non-negative gas prices), every manager operation — `Subscribe`,
`Unsubscribe`, `NotifySubscribers`, `Deposit` with `amount ≥ 0`,
`Withdraw`, `RefundGas` with `gasUsed ≤ gasLimit`, `UpdateSubscription` —
leaves every stored balance non-negative. -/
theorem depositBalance_nonneg_invariant (st : SMState)
    (hB : AllBalancesNonneg st) (hP : AllPricesNonneg st) :
    (∀ target eventSig subscriber callback selector gasLimit gasPrice,
       AllBalancesNonneg (SubscriptionManager.Subscribe st target eventSig subscriber
         callback selector gasLimit gasPrice).2) ∧
    (∀ target eventSig subscriber,
       AllBalancesNonneg (SubscriptionManager.Unsubscribe st target eventSig subscriber)) ∧
    (∀ target eventSig eventData origin,
       AllBalancesNonneg (SubscriptionManager.NotifySubscribers st target eventSig
         eventData origin).2) ∧
    (∀ id amount, 0 ≤ amount →
       AllBalancesNonneg (SubscriptionManager.Deposit st id amount).1) ∧
    (∀ id amount, AllBalancesNonneg (SubscriptionManager.Withdraw st id amount).1) ∧
    (∀ id gasUsed, (∀ sub, getSubscription st id = some sub → gasUsed ≤ sub.GasLimit) →
       AllBalancesNonneg (SubscriptionManager.RefundGas st id gasUsed)) ∧
    (∀ id gasLimit gasPrice,
       AllBalancesNonneg (SubscriptionManager.UpdateSubscription st id gasLimit gasPrice).1) := by
  refine ⟨?_, ?_, ?_, ?_, ?_, ?_, ?_⟩
  · intro t e s c sel gl gp
    by_cases hc : ((getSubscription st (ComputeSubscriptionID t e s)).map
        Subscription.Active).getD false = true
    · simpa [SubscriptionManager.Subscribe, hc] using hB
    · have hc' := Bool.eq_false_iff.mpr hc
      simp only [SubscriptionManager.Subscribe, hc', Bool.false_eq_true, if_false]
      exact fun p hp => allBalancesNonneg_set st _ _ hB (by norm_num) p hp
  · intro t e s
    cases hg : getSubscription st (ComputeSubscriptionID t e s) with
    | none => simpa [SubscriptionManager.Unsubscribe, hg] using hB
    | some sub =>
      by_cases hact : sub.Active = true
      · have hbal := balance_of_getSubscription st hB hg
        simp only [SubscriptionManager.Unsubscribe, hg, hact, if_true]
        exact fun p hp =>
          allBalancesNonneg_set st _ { sub with Active := false } hB hbal p hp
      · have hact' : sub.Active = false := Bool.eq_false_iff.mpr hact
        simpa [SubscriptionManager.Unsubscribe, hg, hact'] using hB
  · intro t e d o
    exact notifyLoop_preserves_nonneg d o _ st hB
  · intro id amount hamt
    cases hg : getSubscription st id with
    | none => simpa [SubscriptionManager.Deposit, hg] using hB
    | some sub =>
      have hbal := balance_of_getSubscription st hB hg
      simp only [SubscriptionManager.Deposit, hg]
      exact allBalancesNonneg_set st _ _ hB (by simpa using add_nonneg hbal hamt)
  · intro id amount
    cases hg : getSubscription st id with
    | none => simpa [SubscriptionManager.Withdraw, hg] using hB
    | some sub =>
      by_cases hlt : sub.DepositBalance < amount
      · simpa [SubscriptionManager.Withdraw, hg, hlt] using hB
      · have hle : amount ≤ sub.DepositBalance := not_lt.mp hlt
        simp only [SubscriptionManager.Withdraw, hg, hlt, if_false]
        exact fun p hp => allBalancesNonneg_set st _ _ hB (by simp; omega) p hp
  · intro id gasUsed _hused
    cases hg : getSubscription st id with
    | none => simpa [SubscriptionManager.RefundGas, hg] using hB
    | some sub =>
      have hbal := balance_of_getSubscription st hB hg
      have hpr := price_of_getSubscription st hP hg
      simp only [SubscriptionManager.RefundGas, hg]
      refine allBalancesNonneg_set st _ _ hB ?_
      simp only [Subscription.RefundGas]
      exact add_nonneg hbal (mul_nonneg (Int.natCast_nonneg _) hpr)
  · intro id gl gp
    cases hg : getSubscription st id with
    | none => simpa [SubscriptionManager.UpdateSubscription, hg] using hB
    | some sub =>
      by_cases hact : sub.Active = true
      · have hbal := balance_of_getSubscription st hB hg
        simp only [SubscriptionManager.UpdateSubscription, hg, hact, if_true]
        exact fun p hp =>
          allBalancesNonneg_set st _
            { sub with GasLimit := gl, GasPrice := gp, Active := true }
            hB hbal p hp
      · have hact' : sub.Active = false := Bool.eq_false_iff.mpr hact
        simpa [SubscriptionManager.UpdateSubscription, hg, hact'] using hB

/-! ### Concrete sample data for witnesses -/

/-- A funded, active sample subscription (identity key 5). -/
def subW : Subscription :=
  { ID := 5
    TargetContract := 1
    EventSignature := 2
    SubscriberContract := 3
    CallbackAddress := 4
    CallbackSelector := [1, 2, 3, 4]
    GasLimit := 10
    GasPrice := 7
    DepositBalance := 100
    Active := true }

/-- An inactive sample subscription for the same event (identity key 6). -/
def subInact : Subscription :=
  { ID := 6
    TargetContract := 1
    EventSignature := 2
    SubscriberContract := 30
    CallbackAddress := 31
    CallbackSelector := []
    GasLimit := 10
    GasPrice := 7
    DepositBalance := 50
    Active := false }

/-- An active but underfunded sample subscription (identity key 7). -/
def subPoor : Subscription :=
  { ID := 7
    TargetContract := 1
    EventSignature := 2
    SubscriberContract := 40
    CallbackAddress := 41
    CallbackSelector := [9]
    GasLimit := 10
    GasPrice := 7
    DepositBalance := 3
    Active := true }

/-- A sample registry holding the three records above. -/
def stW : SMState :=
  { store := [(5, subW), (6, subInact), (7, subPoor)], logs := [] }

/-- An inactive record stored under its computed identity
`ComputeSubscriptionID 1 2 3 = 122`. -/
def subOld : Subscription :=
  { ID := 122
    TargetContract := 1
    EventSignature := 2
    SubscriberContract := 3
    CallbackAddress := 9
    CallbackSelector := [0]
    GasLimit := 5
    GasPrice := 2
    DepositBalance := 44
    Active := false }

/-- A registry holding only the inactive record `subOld`. -/
def stOld : SMState :=
  { store := [(122, subOld)], logs := [] }

/-- The empty registry. -/
def st0 : SMState :=
  { store := [], logs := [] }

/-! ### Witnesses -/

/-- Witness for C1 at the sample registry: the well-formedness hypotheses
hold and the selected subscription `subW` is charged exactly its gas cost
while the underfunded `subPoor` is left unchanged. -/
theorem notifySubscribers_selection_witness :
    WFStore stW ∧
    SubscriptionManager.GetBalance
        (SubscriptionManager.NotifySubscribers stW 1 2 [9] 8).2 5 =
      SubscriptionManager.GetBalance stW 5 - subW.GasCost ∧
    SubscriptionManager.GetBalance
        (SubscriptionManager.NotifySubscribers stW 1 2 [9] 8).2 7 =
      SubscriptionManager.GetBalance stW 7 :=
  ⟨by decide,
   (notifySubscribers_selection stW (by decide) 1 2 [9] 8).2.1 subW (by decide)
     (by decide) (by decide),
   (notifySubscribers_selection stW (by decide) 1 2 [9] 8).2.2 subPoor (by decide)
     (by decide)⟩

/-- Witness for C2 at the sample registry: `subW` exists with balance 100,
and a withdrawal of 30 succeeds exactly because `30 ≤ 100`. -/
theorem withdraw_safety_witness :
    getSubscription stW 5 = some subW ∧
    ((SubscriptionManager.Withdraw stW 5 30).2 = none ↔
      (30 : Int) ≤ subW.DepositBalance) :=
  ⟨by decide, (withdraw_safety stW 5 subW 30 (by decide)).1⟩

/-- Witness for C3: re-subscribing over the inactive record `subOld`
replaces it wholesale with a fresh zero-balance active record. -/
theorem resubscribe_overwrites_inactive_witness :
    getSubscription stOld (ComputeSubscriptionID 1 2 3) = some subOld ∧
    subOld.Active = false ∧
    getSubscription
      (SubscriptionManager.Subscribe stOld 1 2 3 4 [1, 2, 3, 4] 10 7).2
      (ComputeSubscriptionID 1 2 3) =
      some { ID := ComputeSubscriptionID 1 2 3
             TargetContract := 1
             EventSignature := 2
             SubscriberContract := 3
             CallbackAddress := 4
             CallbackSelector := [1, 2, 3, 4]
             GasLimit := 10
             GasPrice := 7
             DepositBalance := 0
             Active := true } :=
  ⟨by decide, by decide,
   (resubscribe_overwrites_inactive stOld 1 2 3 4 [1, 2, 3, 4] 10 7 subOld
     (by decide) (by decide)).2⟩

/-- Witness for C4: refunding 4 of `subW`'s 10 gas units credits exactly
`(10 − 4) * 7`. -/
theorem refundGas_exact_witness :
    getSubscription stW 5 = some subW ∧
    (4 : Nat) ≤ subW.GasLimit ∧ subW.GasLimit < 2 ^ 64 ∧
    getSubscription (SubscriptionManager.RefundGas stW 5 4) 5 =
      some { subW with DepositBalance :=
        subW.DepositBalance + ((subW.GasLimit - 4 : Nat) : Int) * subW.GasPrice } :=
  ⟨by decide, by decide, by decide,
   refundGas_exact stW 5 subW 4 (by decide) (by decide) (by decide)⟩

/-- Witness for C5: a refund with `gasUsed = 12 > gasLimit = 10` wraps the
unused-gas subtraction modulo `2 ^ 64`. -/
theorem refundGas_underflow_wraps_witness :
    getSubscription stW 5 = some subW ∧
    subW.GasLimit < 12 ∧ subW.GasLimit < 2 ^ 64 ∧ (12 : Nat) < 2 ^ 64 ∧
    (getSubscription (SubscriptionManager.RefundGas stW 5 12) 5 =
      some { subW with DepositBalance :=
        subW.DepositBalance + (((subW.GasLimit : Int) - 12) % 2 ^ 64) * subW.GasPrice } ∧
    0 < ((subW.GasLimit : Int) - 12) % 2 ^ 64) :=
  ⟨by decide, by decide, by decide, by decide,
   refundGas_underflow_wraps stW 5 subW 12 (by decide) (by decide) (by decide)
     (by decide)⟩

/-- Witness for C6: on the empty registry, two identical `Subscribe` calls
create once and then no-op. -/
theorem subscribe_idempotent_witness :
    ((getSubscription st0 (ComputeSubscriptionID 1 2 3)).map
        Subscription.Active).getD false = false ∧
    (∃ st1 : SMState,
      SubscriptionManager.Subscribe st0 1 2 3 4 [1, 2, 3, 4] 10 7 =
        (ComputeSubscriptionID 1 2 3, st1) ∧
      SubscriptionManager.Subscribe st1 1 2 3 4 [1, 2, 3, 4] 10 7 =
        (ComputeSubscriptionID 1 2 3, st1) ∧
      st1.logs = st0.logs ++
        [{ Address := SubscriptionManagerAddress
           Topics := [SubscriptionCreatedTopic, ComputeSubscriptionID 1 2 3, 1, 3]
           Data := [2] }] ∧
      SubscriptionManager.GetBalance st1 (ComputeSubscriptionID 1 2 3) = 0) :=
  ⟨by decide, subscribe_idempotent st0 1 2 3 4 [1, 2, 3, 4] 10 7 (by decide)⟩

/-- Witness for C7: `subOld` satisfies the identity invariant, and its
encode-decode round trip is the identity. -/
theorem subscription_rlp_roundtrip_witness :
    subOld.ID = ComputeSubscriptionID subOld.TargetContract subOld.EventSignature
      subOld.SubscriberContract ∧
    Subscription.decodeRLP subOld.encodeRLP = subOld :=
  ⟨by decide, (subscription_rlp_roundtrip subOld).2 (by decide)⟩

/-- Witness for C8: the sample registry satisfies both non-negativity
hypotheses, and a withdrawal preserves non-negative balances. -/
theorem depositBalance_nonneg_invariant_witness :
    AllBalancesNonneg stW ∧ AllPricesNonneg stW ∧
    AllBalancesNonneg (SubscriptionManager.Withdraw stW 5 30).1 :=
  ⟨by decide, by decide,
   (depositBalance_nonneg_invariant stW (by decide) (by decide)).2.2.2.2.1 5 30⟩

/-- Witness for C9: identity 999 has no record in the sample registry;
`Deposit` fails with `InvalidSubscription` and `GetBalance` returns 0. -/
theorem invalid_identity_errors_witness :
    getSubscription stW 999 = none ∧
    SubscriptionManager.Deposit stW 999 42 = (stW, some SMError.InvalidSubscription) ∧
    SubscriptionManager.GetBalance stW 999 = 0 :=
  ⟨by decide,
   (invalid_identity_errors stW 999 (by decide)).1 42,
   (invalid_identity_errors stW 999 (by decide)).2.2.2⟩

/-- Witness for C10: `subW` has sufficient deposit, `DeductGas` reports
success on it, and the loop coincides with the sentinel variant on a
concrete run. -/
theorem deductGas_skip_branch_unreachable_witness :
    subW.HasSufficientDeposit = true ∧
    (subW.DeductGas).1 = true ∧
    SubscriptionManager.notifyLoop [9] 8 [subW] stW =
      SubscriptionManager.notifyLoopSentinel [9] 8 [subW] stW :=
  ⟨by decide,
   deductGas_skip_branch_unreachable.1 subW (by decide),
   deductGas_skip_branch_unreachable.2 [9] 8 [subW] stW⟩
